import Mathlib

/-!
Shallow embedding of the libsddc control core (libsddc.c): device handle
state, capability dispatch at open, RF mode switch, gain/attenuation
codecs, and the streaming start/stop state machine.  External transport
and streaming collaborators are modelled by an oracle `Env` deciding
which issued commands succeed; every operation returns its C return
status, the new handle state, and the trace of commands it issued.
C `double` values are modelled as exact rationals; C double-to-integer
casts (truncation toward zero) are modelled by `dtrunc`.
-/

/-- enum SDDCStatus from libsddc.h -/
inductive SDDCStatus where
  | OFF
  | READY
  | STREAMING
  | FAILED
deriving DecidableEq, Repr

/-- enum RFMode from libsddc.h -/
inductive RFMode where
  | NO_RF_MODE
  | HF_MODE
  | VHF_MODE
deriving DecidableEq, Repr

/- hardware model ids (enum SDDCHWModel); the identification byte is kept
as a raw Nat so that unknown ids fall through to the default case. -/
def HW_NORADIO : Nat := 0
def HW_BBRF103 : Nat := 1
def HW_HF103 : Nat := 2
def HW_RX888 : Nat := 3
def HW_RX888R2 : Nat := 4
def HW_RX999 : Nat := 5

/- GPIO bit masks (enum GPIOBits) -/
def GPIO_ADC_SHDN : Nat := 0x0020
def GPIO_ATT_SEL0 : Nat := 0x2000
def GPIO_ATT_SEL1 : Nat := 0x4000

/- firmware register addresses (enum FWRegAddresses) -/
def FW_REG_R82XX_ATTENUATOR : Nat := 0x01
def FW_REG_R82XX_VGA : Nat := 0x02
def FW_REG_DAT31_ATT : Nat := 0x0a
def FW_REG_AD8370_VGA : Nat := 0x0b

/- AD8370 VGA encoding constants (libsddc.h) -/
def AD8370_HIGH_MODE : Nat := 0x80
def AD8370_LOW_MODE : Nat := 0x00
def AD8370_GAIN_SWEET_POINT : Nat := 18

/-- tuner reference clock: 32 MHz (TUNER_CLOCK in libsddc.c) -/
def TUNER_CLOCK : ℚ := 32000000

/-- C double-to-integer conversion: truncation toward zero. -/
def dtrunc (q : ℚ) : Int := if q < 0 then -(⌊-q⌋) else ⌊q⌋

/-- control-transfer opcodes sent to the firmware -/
inductive Opcode where
  | TESTFX3
  | STARTADC
  | STARTFX3
  | STOPFX3
  | R82XXINIT
  | R82XXTUNE
  | R82XXSTDBY
deriving DecidableEq, Repr

/-- one externally visible command issued by an operation -/
inductive Command where
  | usbControl (opcode : Opcode) (payload : Int)
  | gpioOn (mask : Nat)
  | gpioOff (mask : Nat)
  | gpioSet (bits : Nat) (mask : Nat)
  | setFwRegister (address : Nat) (value : Nat)
  | streamingSetSampleRate (rate : Int)
  | streamingStart
  | streamingStop
  | streamingClose
deriving DecidableEq, Repr

/-- transport oracle: which issued commands succeed -/
abbrev Env := Command → Bool

/-- error taxonomy of the spec; the C code returns -1 at each of these
branches with a distinct diagnostic message. -/
inductive SDDCError where
  | StateError
  | ValidationError
  | TransportError
deriving DecidableEq, Repr

/-- C return status of an operation: ok is 0, err is -1 with its kind -/
inductive CRet where
  | ok
  | err (e : SDDCError)
deriving DecidableEq, Repr

/-- struct sddc from libsddc.c (transport/streaming pointers reduced to a
session-present flag; the trace records what was sent to them) -/
structure Sddc where
  status : SDDCStatus
  model : Nat
  firmware : Nat
  rf_mode : RFMode
  streaming : Bool
  has_clock_source : Bool
  has_vhf_tuner : Bool
  hf_attenuator_levels : Nat
  hf_vga_levels : Nat
  hf_attenuation : ℚ
  hf_vga_gain : Int
  sample_rate : ℚ
  tuner_frequency : ℚ
  tuner_attenuation : ℚ
  tuner_clock : ℚ
  freq_corr_ppm : ℚ
  frequency_range_lo : ℚ
  frequency_range_hi : ℚ
deriving DecidableEq, Repr

/-- result of one operation: C return status, final handle state, and the
trace of commands issued to the transport/streaming collaborators -/
structure OpResult where
  ret : CRet
  st : Sddc
  trace : List Command
deriving DecidableEq, Repr

/-- defaults set at the end of sddc_open -/
def DEFAULT_SAMPLE_RATE : ℚ := 64000000
def DEFAULT_TUNER_FREQUENCY : ℚ := 999000
def DEFAULT_FREQ_CORR_PPM : ℚ := 0
def DEFAULT_HF_ATTENUATION : ℚ := 0
def DEFAULT_TUNER_ATTENUATION : ℚ := 0

/-- sddc_open, successful path: capability dispatch on the identification
byte (model id), firmware version from the two following bytes, then the
defaults.  Transport acquisition/identification failures return NULL in C
and produce no handle, so only the successful path is modelled. -/
def sddc_open (modelId b1 b2 : Nat) : Sddc :=
  let base : Sddc := {
    status := SDDCStatus.READY
    model := modelId
    firmware := (b1 % 256) * 256 + (b2 % 256)
    rf_mode := RFMode.HF_MODE
    streaming := false
    has_clock_source := false
    has_vhf_tuner := false
    hf_attenuator_levels := 0
    hf_vga_levels := 0
    hf_attenuation := DEFAULT_HF_ATTENUATION
    hf_vga_gain := 0x25
    sample_rate := DEFAULT_SAMPLE_RATE
    tuner_frequency := DEFAULT_TUNER_FREQUENCY
    tuner_attenuation := DEFAULT_TUNER_ATTENUATION
    tuner_clock := 0
    freq_corr_ppm := DEFAULT_FREQ_CORR_PPM
    frequency_range_lo := 0
    frequency_range_hi := 0 }
  if modelId = HW_BBRF103 ∨ modelId = HW_RX888 then
    { base with
      has_clock_source := true
      has_vhf_tuner := true
      hf_attenuator_levels := 3
      hf_vga_levels := 0
      frequency_range_lo := 10000
      frequency_range_hi := 1750000000 }
  else if modelId = HW_RX888R2 then
    { base with
      has_clock_source := true
      has_vhf_tuner := true
      hf_attenuator_levels := 64
      hf_vga_levels := 127
      frequency_range_lo := 10000
      frequency_range_hi := 1750000000 }
  else if modelId = HW_HF103 then
    { base with
      has_clock_source := false
      has_vhf_tuner := false
      hf_attenuator_levels := 32
      hf_vga_levels := 0
      frequency_range_lo := 0
      frequency_range_hi := 32000000 }
  else
    base

/-- getters (direct field reads in libsddc.c) -/
def sddc_get_status (s : Sddc) : SDDCStatus := s.status

def sddc_get_rf_mode (s : Sddc) : RFMode := s.rf_mode

def sddc_get_hf_attenuation (s : Sddc) : ℚ := s.hf_attenuation

def sddc_get_frequency_correction (s : Sddc) : ℚ := s.freq_corr_ppm

/-- GPIO select pattern of the 3-level attenuator switch in
sddc_set_hf_attenuation (cases 0 / 10 / 20 of the truncated value) -/
def att3_bit_pattern (t : Int) : Nat :=
  if t = 0 then GPIO_ATT_SEL1
  else if t = 10 then GPIO_ATT_SEL0 ||| GPIO_ATT_SEL1
  else GPIO_ATT_SEL0

/-- sddc_set_hf_attenuation -/
def sddc_set_hf_attenuation (env : Env) (s : Sddc) (attenuation : ℚ) : OpResult :=
  if s.hf_attenuator_levels = 0 then
    ⟨CRet.ok, s, []⟩
  else if s.hf_attenuator_levels = 3 then
    let t := dtrunc attenuation
    if t = 0 ∨ t = 10 ∨ t = 20 then
      let s1 := { s with hf_attenuation := attenuation }
      let c := Command.gpioSet (att3_bit_pattern t) (GPIO_ATT_SEL0 ||| GPIO_ATT_SEL1)
      if env c then ⟨CRet.ok, s1, [c]⟩ else ⟨CRet.err SDDCError.TransportError, s1, [c]⟩
    else
      ⟨CRet.err SDDCError.ValidationError, s, []⟩
  else if s.hf_attenuator_levels = 32 then
    if attenuation < 0 ∨ attenuation > (s.hf_attenuator_levels : ℚ) - 1 then
      ⟨CRet.err SDDCError.ValidationError, s, []⟩
    else
      let s1 := { s with hf_attenuation := attenuation }
      let c := Command.setFwRegister FW_REG_DAT31_ATT (dtrunc attenuation).toNat
      if env c then ⟨CRet.ok, s1, [c]⟩ else ⟨CRet.err SDDCError.TransportError, s1, [c]⟩
  else if s.hf_attenuator_levels = 64 then
    if attenuation < 0 ∨ attenuation > 31.5 then
      ⟨CRet.err SDDCError.ValidationError, s, []⟩
    else
      let s1 := { s with hf_attenuation := attenuation }
      let c := Command.setFwRegister FW_REG_DAT31_ATT (dtrunc (attenuation * 2)).toNat
      if env c then ⟨CRet.ok, s1, [c]⟩ else ⟨CRet.err SDDCError.TransportError, s1, [c]⟩
  else
    ⟨CRet.err SDDCError.ValidationError, s, []⟩

/-- sddc_set_hf_vga_gain -/
def sddc_set_hf_vga_gain (env : Env) (s : Sddc) (idx : Int) : OpResult :=
  if s.hf_vga_levels = 0 then
    ⟨CRet.ok, s, []⟩
  else if s.hf_vga_levels = 127 then
    if idx < 0 ∨ idx > 127 then
      ⟨CRet.err SDDCError.ValidationError, s, []⟩
    else
      let gain_code : Nat :=
        if idx > (AD8370_GAIN_SWEET_POINT : Int) then
          AD8370_HIGH_MODE ||| (idx.toNat - AD8370_GAIN_SWEET_POINT + 3)
        else
          AD8370_LOW_MODE ||| (idx.toNat + 1)
      let s1 := { s with hf_vga_gain := idx }
      let c := Command.setFwRegister FW_REG_AD8370_VGA gain_code
      if env c then ⟨CRet.ok, s1, [c]⟩ else ⟨CRet.err SDDCError.TransportError, s1, [c]⟩
  else
    ⟨CRet.err SDDCError.ValidationError, s, []⟩

/-- sddc_set_tuner_frequency -/
def sddc_set_tuner_frequency (env : Env) (s : Sddc) (frequency : ℚ) : OpResult :=
  let c := Command.usbControl Opcode.R82XXTUNE (dtrunc frequency)
  if env c then ⟨CRet.ok, { s with tuner_frequency := frequency }, [c]⟩
  else ⟨CRet.err SDDCError.TransportError, s, [c]⟩

/-- the fixed RF (LNA/mixer) attenuation table, 29 entries -/
def tuner_rf_attenuations_table : List ℚ :=
  [0, 0.9, 1.4, 2.7, 3.7, 7.7, 8.7, 12.5, 14.4, 15.7, 16.6, 19.7, 20.7,
   22.9, 25.4, 28.0, 29.7, 32.8, 33.8, 36.4, 37.2, 38.6, 40.2, 42.1, 43.4,
   43.9, 44.5, 48.0, 49.6]

/-- the fixed IF (VGA) attenuation table, 16 entries -/
def tuner_if_attenuations_table : List ℚ :=
  [-4.7, -2.1, 0.5, 3.5, 7.7, 11.2, 13.6, 14.9, 16.3, 19.5, 23.1, 26.5,
   30.0, 33.7, 37.2, 40.8]

/-- the scan loop of sddc_set_tuner_rf_attenuation /
sddc_set_tuner_if_attenuation: current best (index, distance) pair,
updated only on strictly smaller distance -/
def scanNearestP (x : ℚ) : List ℚ → Nat → Nat × ℚ → Nat × ℚ
  | [], _, best => best
  | a :: rest, i, best =>
      if |x - a| < best.2 then scanNearestP x rest (i + 1) (i, |x - a|)
      else scanNearestP x rest (i + 1) best

/-- index selected by the C scan: start from entry 0, then scan the rest -/
def nearestIdx (x : ℚ) (tbl : List ℚ) : Nat :=
  match tbl with
  | [] => 0
  | a :: rest => (scanNearestP x rest 1 (0, |x - a|)).1

/-- sddc_set_tuner_rf_attenuation; the second component is the actual
applied dB value reported (INFO message) on success -/
def sddc_set_tuner_rf_attenuation (env : Env) (s : Sddc) (attenuation : ℚ) :
    OpResult × ℚ :=
  let idx := nearestIdx attenuation tuner_rf_attenuations_table
  let c := Command.setFwRegister FW_REG_R82XX_ATTENUATOR idx
  let applied := tuner_rf_attenuations_table.getD idx 0
  if env c then (⟨CRet.ok, s, [c]⟩, applied)
  else (⟨CRet.err SDDCError.TransportError, s, [c]⟩, applied)

/-- sddc_set_tuner_if_attenuation; same shape over the IF table -/
def sddc_set_tuner_if_attenuation (env : Env) (s : Sddc) (attenuation : ℚ) :
    OpResult × ℚ :=
  let idx := nearestIdx attenuation tuner_if_attenuations_table
  let c := Command.setFwRegister FW_REG_R82XX_VGA idx
  let applied := tuner_if_attenuations_table.getD idx 0
  if env c then (⟨CRet.ok, s, [c]⟩, applied)
  else (⟨CRet.err SDDCError.TransportError, s, [c]⟩, applied)

/-- sddc_set_sample_rate ("no checks yet") -/
def sddc_set_sample_rate (s : Sddc) (sample_rate : ℚ) : OpResult :=
  ⟨CRet.ok, { s with sample_rate := sample_rate }, []⟩

/-- sddc_set_frequency_correction -/
def sddc_set_frequency_correction (s : Sddc) (correction : ℚ) : OpResult :=
  if s.status = SDDCStatus.STREAMING then
    ⟨CRet.err SDDCError.StateError, s, []⟩
  else
    ⟨CRet.ok, { s with freq_corr_ppm := correction }, []⟩

/-- helper sddc_set_vhf_gpios: clear both attenuator select bits -/
def sddc_set_vhf_gpios_cmd : Command :=
  Command.gpioSet 0 (GPIO_ATT_SEL0 ||| GPIO_ATT_SEL1)

/-- sddc_set_rf_mode -/
def sddc_set_rf_mode (env : Env) (s : Sddc) (rf_mode : RFMode) : OpResult :=
  match rf_mode with
  | RFMode.HF_MODE =>
      let s1 := { s with rf_mode := RFMode.HF_MODE }
      let c1 := Command.usbControl Opcode.R82XXSTDBY 0
      if env c1 then
        let r2 := sddc_set_hf_attenuation env s1 s1.hf_attenuation
        match r2.ret with
        | CRet.err e => ⟨CRet.err e, r2.st, c1 :: r2.trace⟩
        | CRet.ok =>
            if r2.st.hf_vga_levels > 0 then
              let r3 := sddc_set_hf_vga_gain env r2.st r2.st.hf_vga_gain
              ⟨r3.ret, r3.st, c1 :: (r2.trace ++ r3.trace)⟩
            else
              ⟨CRet.ok, r2.st, c1 :: r2.trace⟩
      else ⟨CRet.err SDDCError.TransportError, s1, [c1]⟩
  | RFMode.VHF_MODE =>
      if s.has_vhf_tuner then
        let s1 := { s with rf_mode := RFMode.VHF_MODE }
        let c1 := sddc_set_vhf_gpios_cmd
        if env c1 then
          let c2 := Command.usbControl Opcode.R82XXINIT
            (dtrunc (s1.tuner_clock + (1 / 1000000) * s1.freq_corr_ppm * s1.tuner_clock))
          if env c2 then ⟨CRet.ok, s1, [c1, c2]⟩
          else ⟨CRet.err SDDCError.TransportError, s1, [c1, c2]⟩
        else ⟨CRet.err SDDCError.TransportError, s1, [c1]⟩
      else
        ⟨CRet.err SDDCError.ValidationError, s, []⟩
  | RFMode.NO_RF_MODE =>
      ⟨CRet.err SDDCError.ValidationError, s, []⟩

/-- sddc_start_streaming -/
def sddc_start_streaming (env : Env) (s : Sddc) : OpResult :=
  if s.status ≠ SDDCStatus.READY then
    ⟨CRet.err SDDCError.StateError, s, []⟩
  else
    let c1 := Command.usbControl Opcode.STARTADC
      (dtrunc (s.sample_rate + (1 / 1000000) * s.freq_corr_ppm * s.sample_rate))
    if ¬ env c1 then ⟨CRet.err SDDCError.TransportError, s, [c1]⟩ else
    let c2 := Command.usbControl Opcode.R82XXINIT
      (dtrunc (TUNER_CLOCK + (1 / 1000000) * s.freq_corr_ppm * TUNER_CLOCK))
    let t2 := c1 :: (if s.rf_mode = RFMode.VHF_MODE then [c2] else [])
    if s.rf_mode = RFMode.VHF_MODE ∧ ¬ env c2 then
      ⟨CRet.err SDDCError.TransportError, s, t2⟩
    else
    let t3 := t2 ++ (if s.streaming then
      [Command.streamingSetSampleRate (dtrunc s.sample_rate), Command.streamingStart]
      else [])
    if s.streaming ∧ ¬ env Command.streamingStart then
      ⟨CRet.err SDDCError.TransportError, s, t3⟩
    else
    let c4 := Command.usbControl Opcode.STARTFX3 0
    let t4 := t3 ++ [c4]
    if ¬ env c4 then ⟨CRet.err SDDCError.TransportError, s, t4⟩
    else ⟨CRet.ok, { s with status := SDDCStatus.STREAMING }, t4⟩

/-- sddc_stop_streaming (note: this->streaming is not cleared after
streaming_close in the C code) -/
def sddc_stop_streaming (env : Env) (s : Sddc) : OpResult :=
  if s.status ≠ SDDCStatus.STREAMING then
    ⟨CRet.err SDDCError.StateError, s, []⟩
  else
    let c1 := Command.usbControl Opcode.STOPFX3 0
    if ¬ env c1 then ⟨CRet.err SDDCError.TransportError, s, [c1]⟩ else
    let t2 := c1 :: (if s.streaming then [Command.streamingStop] else [])
    if s.streaming ∧ ¬ env Command.streamingStop then
      ⟨CRet.err SDDCError.TransportError, s, t2⟩
    else
    let t3 := t2 ++ (if s.streaming then [Command.streamingClose] else [])
    let c3 := Command.usbControl Opcode.R82XXSTDBY 0
    let t4 := t3 ++ (if s.rf_mode = RFMode.VHF_MODE then [c3] else [])
    if s.rf_mode = RFMode.VHF_MODE ∧ ¬ env c3 then
      ⟨CRet.err SDDCError.TransportError, s, t4⟩
    else
    let c5 := Command.gpioOn GPIO_ADC_SHDN
    let t5 := t4 ++ [c5]
    if ¬ env c5 then ⟨CRet.err SDDCError.TransportError, s, t5⟩
    else ⟨CRet.ok, { s with status := SDDCStatus.READY }, t5⟩

/-!  Properties of the nearest-entry scan loop. -/

/-- invariant of the scan loop: starting from a best pair that is the
first-encountered minimum of the already processed prefix, the final pair
is the first-encountered minimum of the whole table. `g` gives the table
entry at each absolute index; `rest` holds the entries from index `i` on. -/
theorem scanNearestP_spec (x : ℚ) (g : Nat → ℚ) (rest : List ℚ) :
    ∀ (i : Nat) (bi : Nat) (ba : ℚ),
      (∀ k, k < rest.length → rest.getD k 0 = g (i + k)) →
      ba = |x - g bi| → bi < i →
      (∀ j, j < i → ba ≤ |x - g j| ∧ (|x - g j| = ba → bi ≤ j)) →
      ((scanNearestP x rest i (bi, ba)).2 =
          |x - g (scanNearestP x rest i (bi, ba)).1| ∧
       (scanNearestP x rest i (bi, ba)).1 < i + rest.length ∧
       ∀ j, j < i + rest.length →
          (scanNearestP x rest i (bi, ba)).2 ≤ |x - g j| ∧
          (|x - g j| = (scanNearestP x rest i (bi, ba)).2 →
            (scanNearestP x rest i (bi, ba)).1 ≤ j)) := by
  induction rest with
  | nil =>
      intro i bi ba _ hb hbi hinv
      simp only [scanNearestP, List.length_nil, Nat.add_zero]
      exact ⟨hb, hbi, hinv⟩
  | cons a rest ih =>
      intro i bi ba hg hb hbi hinv
      have ha : a = g i := by
        have h0 := hg 0 (by simp)
        simpa using h0
      have hg' : ∀ k, k < rest.length → rest.getD k 0 = g (i + 1 + k) := by
        intro k hk
        have hk' : k + 1 < (a :: rest).length := by
          simp only [List.length_cons]
          omega
        have hstep := hg (k + 1) hk'
        rw [List.getD_cons_succ] at hstep
        have heq : i + (k + 1) = i + 1 + k := by omega
        exact heq ▸ hstep
      simp only [scanNearestP]
      by_cases h : |x - a| < ba
      · rw [if_pos h]
        have step := ih (i + 1) i (|x - a|) hg' (by rw [ha]) (Nat.lt_succ_self i) ?_
        · obtain ⟨h1, h2, h3⟩ := step
          refine ⟨h1, by simp only [List.length_cons]; omega, ?_⟩
          intro j hj
          exact h3 j (by simp only [List.length_cons] at hj; omega)
        · intro j hj
          rcases Nat.lt_succ_iff_lt_or_eq.mp hj with hj' | hj'
          · have hja := hinv j hj'
            refine ⟨le_of_lt (lt_of_lt_of_le h hja.1), ?_⟩
            intro heq
            exact absurd (heq ▸ lt_of_lt_of_le h hja.1) (lt_irrefl _)
          · subst hj'
            rw [← ha]
            exact ⟨le_refl _, fun _ => le_refl _⟩
      · rw [if_neg h]
        have step := ih (i + 1) bi ba hg' hb (Nat.lt_succ_of_lt hbi) ?_
        · obtain ⟨h1, h2, h3⟩ := step
          refine ⟨h1, by simp only [List.length_cons]; omega, ?_⟩
          intro j hj
          exact h3 j (by simp only [List.length_cons] at hj; omega)
        · intro j hj
          rcases Nat.lt_succ_iff_lt_or_eq.mp hj with hj' | hj'
          · exact hinv j hj'
          · subst hj'
            rw [← ha]
            exact ⟨not_lt.mp h, fun _ => Nat.le_of_lt hbi⟩

/-- the C scan returns the least index of a nearest table entry -/
theorem nearestIdx_spec (x a : ℚ) (rest : List ℚ) :
    nearestIdx x (a :: rest) < (a :: rest).length ∧
    ∀ j, j < (a :: rest).length →
      |x - (a :: rest).getD (nearestIdx x (a :: rest)) 0| ≤
        |x - (a :: rest).getD j 0| ∧
      (|x - (a :: rest).getD j 0| =
          |x - (a :: rest).getD (nearestIdx x (a :: rest)) 0| →
        nearestIdx x (a :: rest) ≤ j) := by
  have main := scanNearestP_spec x (fun j => (a :: rest).getD j 0) rest 1 0 (|x - a|)
    (by intro k hk
        have : 1 + k = k + 1 := Nat.add_comm 1 k
        rw [this]
        simp)
    (by simp)
    Nat.one_pos
    (by intro j hj
        interval_cases j
        simp)
  obtain ⟨h1, h2, h3⟩ := main
  have hidx : nearestIdx x (a :: rest) = (scanNearestP x rest 1 (0, |x - a|)).1 := rfl
  constructor
  · rw [hidx]
    simp only [List.length_cons]
    omega
  · intro j hj
    have hj' : j < 1 + rest.length := by
      simp only [List.length_cons] at hj
      omega
    have hmin := h3 j hj'
    rw [hidx, ← h1]
    exact ⟨hmin.1, fun heq => hmin.2 heq⟩

/-!  Characterization lemmas for the streaming lifecycle. -/

/-- case analysis of sddc_start_streaming -/
theorem start_streaming_char (env : Env) (s : Sddc) :
    (s.status ≠ SDDCStatus.READY ∧
      sddc_start_streaming env s = ⟨CRet.err SDDCError.StateError, s, []⟩) ∨
    (s.status = SDDCStatus.READY ∧
      (((sddc_start_streaming env s).ret = CRet.ok ∧
        (sddc_start_streaming env s).st = { s with status := SDDCStatus.STREAMING }) ∨
       ((sddc_start_streaming env s).ret = CRet.err SDDCError.TransportError ∧
        (sddc_start_streaming env s).st = s))) := by
  by_cases h : s.status = SDDCStatus.READY
  · right
    refine ⟨h, ?_⟩
    simp only [sddc_start_streaming, h, ne_eq, not_true_eq_false, if_false]
    split_ifs <;> simp
  · left
    refine ⟨h, ?_⟩
    simp only [sddc_start_streaming, if_pos h]

/-- case analysis of sddc_stop_streaming -/
theorem stop_streaming_char (env : Env) (s : Sddc) :
    (s.status ≠ SDDCStatus.STREAMING ∧
      sddc_stop_streaming env s = ⟨CRet.err SDDCError.StateError, s, []⟩) ∨
    (s.status = SDDCStatus.STREAMING ∧
      (((sddc_stop_streaming env s).ret = CRet.ok ∧
        (sddc_stop_streaming env s).st = { s with status := SDDCStatus.READY }) ∨
       ((sddc_stop_streaming env s).ret = CRet.err SDDCError.TransportError ∧
        (sddc_stop_streaming env s).st = s))) := by
  by_cases h : s.status = SDDCStatus.STREAMING
  · right
    refine ⟨h, ?_⟩
    simp only [sddc_stop_streaming, h, ne_eq, not_true_eq_false, if_false]
    split_ifs <;> simp
  · left
    refine ⟨h, ?_⟩
    simp only [sddc_stop_streaming, if_pos h]

/-!  Concrete fixtures used by witnesses. -/

/-- oracle where every transport command succeeds -/
def envT : Env := fun _ => true

/-- an opened BBRF103 handle (3-level attenuator, VHF tuner present) -/
def sBB : Sddc := sddc_open HW_BBRF103 0 0

/-- an opened HF103 handle (32-level attenuator, no VHF tuner) -/
def sHF103 : Sddc := sddc_open HW_HF103 0 0

/-- an opened RX888 mk II handle (64-level attenuator, 127-level VGA) -/
def sR2 : Sddc := sddc_open HW_RX888R2 0 0

/-- a streaming BBRF103 handle -/
def sBBstreaming : Sddc := { sBB with status := SDDCStatus.STREAMING }

/-- Claim C1: startStreaming fails with StateError unless status is READY and
stopStreaming fails with StateError unless status is STREAMING; on full success
start sets status to STREAMING and stop sets it back to READY; on any sub-step
failure the operation returns an error and the handle state (in particular
status) is left unchanged. -/
theorem claim_C1_streaming_lifecycle (env : Env) (s : Sddc) :
    (s.status ≠ SDDCStatus.READY →
      sddc_start_streaming env s = ⟨CRet.err SDDCError.StateError, s, []⟩) ∧
    (s.status ≠ SDDCStatus.STREAMING →
      sddc_stop_streaming env s = ⟨CRet.err SDDCError.StateError, s, []⟩) ∧
    ((sddc_start_streaming env s).ret = CRet.ok →
      (sddc_start_streaming env s).st = { s with status := SDDCStatus.STREAMING }) ∧
    ((sddc_stop_streaming env s).ret = CRet.ok →
      (sddc_stop_streaming env s).st = { s with status := SDDCStatus.READY }) ∧
    (∀ e, (sddc_start_streaming env s).ret = CRet.err e →
      (sddc_start_streaming env s).st = s) ∧
    (∀ e, (sddc_stop_streaming env s).ret = CRet.err e →
      (sddc_stop_streaming env s).st = s) := by
  refine ⟨?_, ?_, ?_, ?_, ?_, ?_⟩
  · intro h
    rcases start_streaming_char env s with ⟨_, heq⟩ | ⟨hr, _⟩
    · exact heq
    · exact absurd hr h
  · intro h
    rcases stop_streaming_char env s with ⟨_, heq⟩ | ⟨hr, _⟩
    · exact heq
    · exact absurd hr h
  · intro hok
    rcases start_streaming_char env s with ⟨_, heq⟩ | ⟨_, hc⟩
    · rw [heq] at hok
      simp at hok
    · rcases hc with ⟨_, hst⟩ | ⟨herr, _⟩
      · exact hst
      · rw [herr] at hok
        simp at hok
  · intro hok
    rcases stop_streaming_char env s with ⟨_, heq⟩ | ⟨_, hc⟩
    · rw [heq] at hok
      simp at hok
    · rcases hc with ⟨_, hst⟩ | ⟨herr, _⟩
      · exact hst
      · rw [herr] at hok
        simp at hok
  · intro e he
    rcases start_streaming_char env s with ⟨_, heq⟩ | ⟨_, hc⟩
    · rw [heq]
    · rcases hc with ⟨hret, _⟩ | ⟨_, hst⟩
      · rw [hret] at he
        simp at he
      · exact hst
  · intro e he
    rcases stop_streaming_char env s with ⟨_, heq⟩ | ⟨_, hc⟩
    · rw [heq]
    · rcases hc with ⟨hret, _⟩ | ⟨_, hst⟩
      · rw [hret] at he
        simp at he
      · exact hst

/-- witness for C1: a fully successful start on a freshly opened BBRF103
handle ends with status STREAMING -/
theorem claim_C1_witness :
    (sddc_start_streaming envT sBB).st = { sBB with status := SDDCStatus.STREAMING } := by
  apply (claim_C1_streaming_lifecycle envT sBB).2.2.1
  norm_num [sddc_start_streaming, envT, sBB, sddc_open, dtrunc,
    DEFAULT_SAMPLE_RATE, DEFAULT_FREQ_CORR_PPM, DEFAULT_TUNER_FREQUENCY,
    DEFAULT_HF_ATTENUATION, DEFAULT_TUNER_ATTENUATION,
    HW_BBRF103, HW_RX888, HW_RX888R2, HW_HF103]

/-- Claim C2: setRfMode(VHF) on a handle without a VHF tuner fails with
ValidationError, leaves the whole handle state (rfMode included) unchanged,
and issues no hardware command. -/
theorem claim_C2_vhf_requires_tuner (env : Env) (s : Sddc)
    (h : s.has_vhf_tuner = false) :
    sddc_set_rf_mode env s RFMode.VHF_MODE =
      ⟨CRet.err SDDCError.ValidationError, s, []⟩ := by
  simp [sddc_set_rf_mode, h]

/-- witness for C2: on an opened HF103 (no VHF tuner) the VHF switch is
rejected with the state untouched and an empty command trace -/
theorem claim_C2_witness :
    sddc_set_rf_mode envT sHF103 RFMode.VHF_MODE =
      ⟨CRet.err SDDCError.ValidationError, sHF103, []⟩ :=
  claim_C2_vhf_requires_tuner envT sHF103 rfl

/-- counterexample to C3 as stated: on a 3-level handle the input 10.5 dB is
not one of {0, 10, 20} yet setHfAttenuation accepts it (the C code switches on
the int-truncated value), returns success and persists 10.5. -/
theorem claim_C3_counterexample :
    sBB.hf_attenuator_levels = 3 ∧
    ¬ ((21 : ℚ)/2 = 0 ∨ (21 : ℚ)/2 = 10 ∨ (21 : ℚ)/2 = 20) ∧
    (sddc_set_hf_attenuation envT sBB ((21 : ℚ)/2)).ret = CRet.ok ∧
    (sddc_set_hf_attenuation envT sBB ((21 : ℚ)/2)).st.hf_attenuation = (21 : ℚ)/2 := by
  refine ⟨rfl, by norm_num, ?_, ?_⟩ <;>
    norm_num [sddc_set_hf_attenuation, envT, sBB, sddc_open, dtrunc,
      HW_BBRF103, HW_RX888, HW_RX888R2, HW_HF103]

/-- Claim C3 (amended): on a 3-level handle setHfAttenuation accepts exactly
the values whose truncation toward zero is 0, 10 or 20, persists the requested
value and issues the distinct 2-bit GPIO select pattern of that group; every
other value fails with ValidationError leaving the state unchanged. -/
theorem claim_C3_amended (env : Env) (s : Sddc) (a : ℚ)
    (h : s.hf_attenuator_levels = 3) :
    (¬ (dtrunc a = 0 ∨ dtrunc a = 10 ∨ dtrunc a = 20) →
      sddc_set_hf_attenuation env s a = ⟨CRet.err SDDCError.ValidationError, s, []⟩) ∧
    ((dtrunc a = 0 ∨ dtrunc a = 10 ∨ dtrunc a = 20) →
      (sddc_set_hf_attenuation env s a).st = { s with hf_attenuation := a } ∧
      (sddc_set_hf_attenuation env s a).trace =
        [Command.gpioSet (att3_bit_pattern (dtrunc a)) (GPIO_ATT_SEL0 ||| GPIO_ATT_SEL1)] ∧
      (env (Command.gpioSet (att3_bit_pattern (dtrunc a))
          (GPIO_ATT_SEL0 ||| GPIO_ATT_SEL1)) = true →
        (sddc_set_hf_attenuation env s a).ret = CRet.ok)) ∧
    att3_bit_pattern 0 ≠ att3_bit_pattern 10 ∧
    att3_bit_pattern 0 ≠ att3_bit_pattern 20 ∧
    att3_bit_pattern 10 ≠ att3_bit_pattern 20 := by
  refine ⟨?_, ?_, by decide, by decide, by decide⟩
  · intro hv
    simp only [sddc_set_hf_attenuation, h]
    norm_num
    intro h'
    exact absurd h' hv
  · intro hv
    simp only [sddc_set_hf_attenuation, h]
    norm_num
    rw [if_pos hv]
    split_ifs with he <;> simp_all

/-- witness for C3 (amended): 10.5 dB is accepted on a 3-level handle, its
truncation being 10, and persists 10.5 -/
theorem claim_C3_witness :
    (sddc_set_hf_attenuation envT sBB ((21 : ℚ)/2)).st =
      { sBB with hf_attenuation := (21 : ℚ)/2 } := by
  have h := (claim_C3_amended envT sBB ((21 : ℚ)/2) rfl).2.1
  apply (h ?_).1
  norm_num [dtrunc]

/-- Claim C4: setTunerRfAttenuation scans the fixed 29-entry RF attenuation
table and writes to the firmware register the index minimizing the absolute
difference to the request, lower index winning ties; the reported applied dB
value is the winning table entry; in particular 5.0 dB selects index 4
(table value 3.7 dB). -/
theorem claim_C4_nearest_rf_attenuation (env : Env) (s : Sddc) (a : ℚ) :
    tuner_rf_attenuations_table.length = 29 ∧
    nearestIdx a tuner_rf_attenuations_table < 29 ∧
    (∀ j, j < 29 →
      |a - tuner_rf_attenuations_table.getD (nearestIdx a tuner_rf_attenuations_table) 0| ≤
        |a - tuner_rf_attenuations_table.getD j 0| ∧
      (|a - tuner_rf_attenuations_table.getD j 0| =
          |a - tuner_rf_attenuations_table.getD (nearestIdx a tuner_rf_attenuations_table) 0| →
        nearestIdx a tuner_rf_attenuations_table ≤ j)) ∧
    (sddc_set_tuner_rf_attenuation env s a).1.trace =
      [Command.setFwRegister FW_REG_R82XX_ATTENUATOR
        (nearestIdx a tuner_rf_attenuations_table)] ∧
    (sddc_set_tuner_rf_attenuation env s a).2 =
      tuner_rf_attenuations_table.getD (nearestIdx a tuner_rf_attenuations_table) 0 ∧
    nearestIdx 5 tuner_rf_attenuations_table = 4 ∧
    tuner_rf_attenuations_table.getD 4 0 = 37/10 := by
  have htab : tuner_rf_attenuations_table =
      (0 : ℚ) :: tuner_rf_attenuations_table.tail := rfl
  have hlen : tuner_rf_attenuations_table.length = 29 := rfl
  obtain ⟨hlt, hmin⟩ := nearestIdx_spec a (0 : ℚ) tuner_rf_attenuations_table.tail
  rw [← htab] at hlt hmin
  rw [hlen] at hlt hmin
  refine ⟨hlen, hlt, hmin, ?_, ?_, ?_, ?_⟩
  · simp only [sddc_set_tuner_rf_attenuation]
    split_ifs <;> rfl
  · simp only [sddc_set_tuner_rf_attenuation]
    split_ifs <;> rfl
  · norm_num [nearestIdx, scanNearestP, tuner_rf_attenuations_table, abs]
  · norm_num [tuner_rf_attenuations_table]

/-- witness for C4: at request 5.0 dB the chosen entry (index 4, 3.7 dB) is
at least as close as entry 0 (0.0 dB) -/
theorem claim_C4_witness :
    |(5 : ℚ) - tuner_rf_attenuations_table.getD
        (nearestIdx 5 tuner_rf_attenuations_table) 0| ≤
      |(5 : ℚ) - tuner_rf_attenuations_table.getD 0 0| :=
  ((claim_C4_nearest_rf_attenuation envT sBB 5).2.2.1 0 (by norm_num)).1

/-- counterexample to C5 as stated: a tuner RF attenuation write that succeeds
at the transport layer does not update any persisted configuration field — the
handle state is returned unchanged, with tuner_attenuation still at its
default 0 rather than the requested 5. -/
theorem claim_C5_counterexample :
    (sddc_set_tuner_rf_attenuation envT sBB 5).1.ret = CRet.ok ∧
    (sddc_set_tuner_rf_attenuation envT sBB 5).1.trace =
      [Command.setFwRegister FW_REG_R82XX_ATTENUATOR 4] ∧
    (sddc_set_tuner_rf_attenuation envT sBB 5).1.st = sBB ∧
    sBB.tuner_attenuation = 0 ∧ (0 : ℚ) ≠ 5 := by
  refine ⟨?_, ?_, ?_, rfl, by norm_num⟩
  · simp [sddc_set_tuner_rf_attenuation, envT]
  · norm_num [sddc_set_tuner_rf_attenuation, envT, nearestIdx, scanNearestP,
      tuner_rf_attenuations_table, abs]
  · simp [sddc_set_tuner_rf_attenuation, envT]

/-- Claim C5 (amended): the HF attenuation, VGA gain, tuner frequency, sample
rate and frequency correction setters persist the requested value whenever the
transport write succeeds (HF attenuation and VGA gain persist it already before
the write), and every validation-rejected write leaves the state untouched;
the tuner RF and IF attenuation setters persist nothing — they only write the
chosen table index to the firmware register, always returning the state
unchanged. -/
theorem claim_C5_amended (env : Env) (s : Sddc) :
    (∀ a, (sddc_set_hf_attenuation env s a).trace ≠ [] →
      (sddc_set_hf_attenuation env s a).st.hf_attenuation = a) ∧
    (∀ a, (sddc_set_hf_attenuation env s a).ret = CRet.err SDDCError.ValidationError →
      (sddc_set_hf_attenuation env s a).st = s) ∧
    (∀ i, (sddc_set_hf_vga_gain env s i).trace ≠ [] →
      (sddc_set_hf_vga_gain env s i).st.hf_vga_gain = i) ∧
    (∀ i, (sddc_set_hf_vga_gain env s i).ret = CRet.err SDDCError.ValidationError →
      (sddc_set_hf_vga_gain env s i).st = s) ∧
    (∀ f, (sddc_set_tuner_frequency env s f).ret = CRet.ok →
      (sddc_set_tuner_frequency env s f).st.tuner_frequency = f) ∧
    (∀ r, (sddc_set_sample_rate s r).ret = CRet.ok ∧
      (sddc_set_sample_rate s r).st.sample_rate = r) ∧
    (∀ c, (sddc_set_frequency_correction s c).ret = CRet.ok →
      (sddc_set_frequency_correction s c).st.freq_corr_ppm = c) ∧
    (∀ a, (sddc_set_tuner_rf_attenuation env s a).1.st = s) ∧
    (∀ a, (sddc_set_tuner_if_attenuation env s a).1.st = s) := by
  refine ⟨?_, ?_, ?_, ?_, ?_, ?_, ?_, ?_, ?_⟩ <;> intro v
  · simp only [sddc_set_hf_attenuation]
    split_ifs <;> simp
  · simp only [sddc_set_hf_attenuation]
    split_ifs <;> simp
  · simp only [sddc_set_hf_vga_gain]
    split_ifs <;> simp
  · simp only [sddc_set_hf_vga_gain]
    split_ifs <;> simp
  · simp only [sddc_set_tuner_frequency]
    split_ifs <;> simp
  · simp only [sddc_set_sample_rate]
    simp
  · simp only [sddc_set_frequency_correction]
    split_ifs <;> simp
  · simp only [sddc_set_tuner_rf_attenuation]
    split_ifs <;> rfl
  · simp only [sddc_set_tuner_if_attenuation]
    split_ifs <;> rfl

/-- witness for C5 (amended): a successful tuner frequency write persists the
requested frequency -/
theorem claim_C5_witness :
    (sddc_set_tuner_frequency envT sBB 7000000).st.tuner_frequency = 7000000 := by
  apply (claim_C5_amended envT sBB).2.2.2.2.1 7000000
  norm_num [sddc_set_tuner_frequency, envT]

/-- Claim C6: setFrequencyCorrection fails with the handle unchanged whenever
status is STREAMING, succeeds in every other status, and on success persists
exactly the requested value so that getFrequencyCorrection returns it. -/
theorem claim_C6_freq_corr (s : Sddc) (c : ℚ) :
    (s.status = SDDCStatus.STREAMING →
      sddc_set_frequency_correction s c = ⟨CRet.err SDDCError.StateError, s, []⟩) ∧
    (s.status ≠ SDDCStatus.STREAMING →
      sddc_set_frequency_correction s c =
        ⟨CRet.ok, { s with freq_corr_ppm := c }, []⟩ ∧
      sddc_get_frequency_correction (sddc_set_frequency_correction s c).st = c) := by
  constructor
  · intro h
    simp [sddc_set_frequency_correction, h]
  · intro h
    simp [sddc_set_frequency_correction, h, sddc_get_frequency_correction]

/-- witness for C6: on a READY handle a correction of 7 ppm is persisted and
read back -/
theorem claim_C6_witness :
    sddc_get_frequency_correction (sddc_set_frequency_correction sBB 7).st = 7 :=
  ((claim_C6_freq_corr sBB 7).2 (by decide)).2

/-- counterexample to C7 as stated: on a 64-level handle the accepted input
10.3 dB is written as the truncation 20 of 10.3 × 2 = 20.6, not as the claimed
round(10.3 × 2) = 21. -/
theorem claim_C7_counterexample :
    sR2.hf_attenuator_levels = 64 ∧
    (0 : ℚ) ≤ 103/10 ∧ (103/10 : ℚ) ≤ 31.5 ∧
    (sddc_set_hf_attenuation envT sR2 (103/10)).trace =
      [Command.setFwRegister FW_REG_DAT31_ATT 20] ∧
    round ((103/10 : ℚ) * 2) = (21 : ℤ) ∧ (20 : ℕ) ≠ 21 := by
  refine ⟨rfl, by norm_num, by norm_num, ?_, ?_, by decide⟩
  · norm_num [sddc_set_hf_attenuation, envT, sR2, sddc_open, dtrunc,
      HW_BBRF103, HW_RX888, HW_RX888R2, HW_HF103]
    decide
  · rw [round_eq]
    norm_num

/-- Claim C7 (amended): on a 64-level handle setHfAttenuation accepts exactly
the closed interval [0, 31.5] dB, rejects everything else with ValidationError
and state unchanged, and writes the truncation toward zero of value × 2 to the
firmware register FW_REG_DAT31_ATT — the same register address the 32-level
class writes. -/
theorem claim_C7_amended (env : Env) (s : Sddc) (a : ℚ)
    (h : s.hf_attenuator_levels = 64) :
    ((a < 0 ∨ a > 31.5) →
      sddc_set_hf_attenuation env s a = ⟨CRet.err SDDCError.ValidationError, s, []⟩) ∧
    (0 ≤ a → a ≤ 31.5 →
      (sddc_set_hf_attenuation env s a).st = { s with hf_attenuation := a } ∧
      (sddc_set_hf_attenuation env s a).trace =
        [Command.setFwRegister FW_REG_DAT31_ATT (dtrunc (a * 2)).toNat] ∧
      (env (Command.setFwRegister FW_REG_DAT31_ATT (dtrunc (a * 2)).toNat) = true →
        (sddc_set_hf_attenuation env s a).ret = CRet.ok)) ∧
    (∀ (env2 : Env) (s2 : Sddc) (a2 : ℚ), s2.hf_attenuator_levels = 32 →
      ¬ (a2 < 0 ∨ a2 > (s2.hf_attenuator_levels : ℚ) - 1) →
      (sddc_set_hf_attenuation env2 s2 a2).trace =
        [Command.setFwRegister FW_REG_DAT31_ATT (dtrunc a2).toNat]) := by
  refine ⟨?_, ?_, ?_⟩
  · intro hv
    norm_num at hv
    simp only [sddc_set_hf_attenuation, h]
    norm_num
    intro h1 h2
    rcases hv with hv | hv
    · exact absurd hv (not_lt.mpr h1)
    · exact absurd hv (not_lt.mpr h2)
  · intro h1 h2
    norm_num at h2
    simp only [sddc_set_hf_attenuation, h]
    norm_num
    rw [if_neg (by push_neg; exact ⟨h1, h2⟩)]
    split_ifs with he <;> simp_all
  · intro env2 s2 a2 h32 hv
    rw [h32] at hv
    simp only [sddc_set_hf_attenuation, h32]
    norm_num
    have hv2 : ¬ (a2 < 0 ∨ (31 : ℚ) < a2) := by
      push_neg at hv ⊢
      refine ⟨hv.1, ?_⟩
      have h31 := hv.2
      norm_num at h31
      exact h31
    rw [if_neg hv2]
    split_ifs <;> rfl

/-- witness for C7 (amended): 10.3 dB is accepted and written as register
value 20 -/
theorem claim_C7_witness :
    (sddc_set_hf_attenuation envT sR2 (103/10)).st =
      { sR2 with hf_attenuation := (103 : ℚ)/10 } := by
  have h := (claim_C7_amended envT sR2 ((103 : ℚ)/10) rfl).2.1
  exact (h (by norm_num) (by norm_num)).1

/-- Claim C8: after every successful open the handle defaults are exactly:
sample rate 64 MHz, tuner frequency 999 kHz, HF attenuation 0 dB, VGA gain
code 0x25 (the mid-scale 20 dB code of the AD8370 scale), frequency
correction 0 ppm and tuner clock 0 (tuner inactive). -/
theorem claim_C8_open_defaults (modelId b1 b2 : Nat) :
    (sddc_open modelId b1 b2).sample_rate = 64000000 ∧
    (sddc_open modelId b1 b2).tuner_frequency = 999000 ∧
    (sddc_open modelId b1 b2).hf_attenuation = 0 ∧
    (sddc_open modelId b1 b2).hf_vga_gain = 0x25 ∧
    (sddc_open modelId b1 b2).freq_corr_ppm = 0 ∧
    (sddc_open modelId b1 b2).tuner_clock = 0 := by
  simp only [sddc_open]
  split_ifs <;>
    simp [DEFAULT_SAMPLE_RATE, DEFAULT_TUNER_FREQUENCY, DEFAULT_HF_ATTENUATION,
      DEFAULT_FREQ_CORR_PPM]

/-- Claim C9: with attenuatorClass NONE (as produced for an unknown hardware
model id) setHfAttenuation returns success for every input, without issuing
any command and without changing any handle state; likewise setHfVgaGain when
vgaClass is NONE. -/
theorem claim_C9_none_classes :
    (∀ (env : Env) (s : Sddc) (a : ℚ), s.hf_attenuator_levels = 0 →
      sddc_set_hf_attenuation env s a = ⟨CRet.ok, s, []⟩) ∧
    (∀ (env : Env) (s : Sddc) (i : Int), s.hf_vga_levels = 0 →
      sddc_set_hf_vga_gain env s i = ⟨CRet.ok, s, []⟩) ∧
    (∀ modelId b1 b2, modelId ≠ HW_BBRF103 → modelId ≠ HW_RX888 →
      modelId ≠ HW_RX888R2 → modelId ≠ HW_HF103 →
      (sddc_open modelId b1 b2).hf_attenuator_levels = 0 ∧
      (sddc_open modelId b1 b2).hf_vga_levels = 0) := by
  refine ⟨?_, ?_, ?_⟩
  · intro env s a h
    simp [sddc_set_hf_attenuation, h]
  · intro env s i h
    simp [sddc_set_hf_vga_gain, h]
  · intro modelId b1 b2 h1 h2 h3 h4
    simp [sddc_open, h1, h2, h3, h4]

/-- witness for C9: on a handle opened with the unknown model id 200 even the
out-of-range request 999 dB succeeds as a no-op -/
theorem claim_C9_witness :
    sddc_set_hf_attenuation envT (sddc_open 200 0 0) 999 =
      ⟨CRet.ok, sddc_open 200 0 0, []⟩ :=
  claim_C9_none_classes.1 envT (sddc_open 200 0 0) 999 rfl

/-- Claim C10: every successful open leaves the handle with status READY and
rfMode HF (never the NONE pre-configuration mode), for every hardware model
id. -/
theorem claim_C10_open_ready_hf (modelId b1 b2 : Nat) :
    (sddc_open modelId b1 b2).status = SDDCStatus.READY ∧
    (sddc_open modelId b1 b2).rf_mode = RFMode.HF_MODE ∧
    RFMode.HF_MODE ≠ RFMode.NO_RF_MODE := by
  refine ⟨?_, ?_, by decide⟩ <;>
    (simp only [sddc_open]; split_ifs <;> rfl)
